import Mathlib

/-!
Shallow embedding of `python/sglang/srt/layers/activation.py` (activation
dispatch layer): the gated activations (SiluAndMul, GeluAndMul), NewGELU,
ReLU2, QuickGELU, the ScaledActivation wrapper with its weight loader, the
name registry `get_act_fn`, the cross-encoder activation resolution and the
module-level hardware fallback condition.

Tensors are modelled by their last dimension as `List α` (for gated ops the
last dimension is what matters); a multi-dimensional tensor is a list of such
rows, with elementwise ops lifted by `List.map`.  Real-valued math is stated
over an arbitrary field with an abstract `exp`, and the claim theorems
instantiate it with `ℝ` and `Real.exp`.
-/

namespace ActivationLayer

/-- The logistic function computed by `torch.sigmoid`: `1 / (1 + exp (-t))`. -/
def sigmoid {α : Type} [Field α] (exp : α → α) (t : α) : α :=
  1 / (1 + exp (-t))

/-- The function `torch.nn.functional.silu`: `silu(t) = t * sigmoid t`. -/
def silu {α : Type} [Field α] (exp : α → α) (t : α) : α :=
  t * sigmoid exp t

/-- Embedding of `SiluAndMul.forward_native` on the last dimension:
`d = x.shape[-1] // 2; return F.silu(x[..., :d]) * x[..., d:]`. -/
def SiluAndMul_forward_native {α : Type} [Field α] (exp : α → α) (x : List α) :
    List α :=
  let d := x.length / 2
  List.zipWith (fun a b => silu exp a * b) (x.take d) (x.drop d)

/-- The rowwise lifting of a last-dimension op to a (flattened) tensor:
leading dimensions are a list of rows, the op acts on each row. -/
def mapRows {α β : Type} (f : List α → List β) (x : List (List α)) :
    List (List β) :=
  x.map f

/-- Embedding of `SiluAndMul.forward_native` on a tensor with leading dimensions. -/
def SiluAndMul_forward_native_tensor {α : Type} [Field α] (exp : α → α)
    (x : List (List α)) : List (List α) :=
  mapRows (SiluAndMul_forward_native exp) x

/-- Embedding of `QuickGELU.forward_native`: `x * torch.sigmoid(1.702 * x)`. -/
def QuickGELU_forward_native {α : Type} [Field α] (exp : α → α) (x : α) : α :=
  x * sigmoid exp (1.702 * x)

theorem length_SiluAndMul_forward_native {α : Type} [Field α] (exp : α → α)
    (d : ℕ) (x : List α) (hx : x.length = 2 * d) :
    (SiluAndMul_forward_native exp x).length = d := by
  simp only [SiluAndMul_forward_native, List.length_zipWith, List.length_take,
    List.length_drop, hx]
  omega

/-- C1: on a row of even length `2*d`, `SiluAndMul.forward_native` splits the
last dimension into halves `a`, `b` and returns `silu a * b` with
`silu t = t / (1 + exp (-t))`; the result's last dimension is `d`, and the
leading dimensions are preserved by the rowwise lifting. -/
theorem SiluAndMul_forward_native_spec (d : ℕ) (x : List (List ℝ))
    (hx : ∀ row ∈ x, row.length = 2 * d) :
    (SiluAndMul_forward_native_tensor Real.exp x).length = x.length ∧
    ∀ row ∈ x,
      (SiluAndMul_forward_native Real.exp row).length = d ∧
      SiluAndMul_forward_native Real.exp row =
        List.zipWith (fun a b => a / (1 + Real.exp (-a)) * b)
          (row.take d) (row.drop d) := by
  refine ⟨by simp [SiluAndMul_forward_native_tensor, mapRows], ?_⟩
  intro row hrow
  have hlen := hx row hrow
  refine ⟨length_SiluAndMul_forward_native Real.exp d row hlen, ?_⟩
  have hd : row.length / 2 = d := by omega
  simp only [SiluAndMul_forward_native, silu, sigmoid, mul_one_div, hd]

/-- Witness for C1 at the concrete tensor `[[1, 2]]` (one row, `d = 1`). -/
theorem SiluAndMul_forward_native_spec_witness :
    (SiluAndMul_forward_native_tensor Real.exp [[(1 : ℝ), 2]]).length = 1 ∧
    ∀ row ∈ [[(1 : ℝ), 2]],
      (SiluAndMul_forward_native Real.exp row).length = 1 ∧
      SiluAndMul_forward_native Real.exp row =
        List.zipWith (fun a b => a / (1 + Real.exp (-a)) * b)
          (row.take 1) (row.drop 1) := by
  have h := SiluAndMul_forward_native_spec 1 [[(1 : ℝ), 2]]
    (by intro row hrow; simp at hrow; simp [hrow])
  simpa using h

theorem sigmoid_real_nonneg (t : ℝ) : 0 ≤ sigmoid Real.exp t := by
  unfold sigmoid
  positivity

theorem sigmoid_real_mono {a b : ℝ} (h : a ≤ b) :
    sigmoid Real.exp a ≤ sigmoid Real.exp b := by
  unfold sigmoid
  have hb : (0 : ℝ) < 1 + Real.exp (-b) := by positivity
  apply one_div_le_one_div_of_le hb
  have hexp : Real.exp (-b) ≤ Real.exp (-a) := Real.exp_le_exp.mpr (by linarith)
  linarith

/-- C2 counterexample: QuickGELU is not monotonically increasing on all of ℝ:
at `x1 = -2 < x2 = -1` the claimed inequality `QuickGELU x1 ≤ QuickGELU x2`
fails (the function dips below zero and comes back up for negative inputs). -/
theorem QuickGELU_not_monotone :
    ((-2 : ℝ) < -1) ∧
    ¬ (QuickGELU_forward_native Real.exp (-2) ≤
        QuickGELU_forward_native Real.exp (-1)) := by
  refine ⟨by norm_num, ?_⟩
  simp only [QuickGELU_forward_native, sigmoid]
  push_neg
  have e1 : -(1.702 * (-1 : ℝ)) = 1.702 := by norm_num
  have e2 : -(1.702 * (-2 : ℝ)) = 3.404 := by norm_num
  rw [e1, e2]
  have hu : (2.702 : ℝ) ≤ Real.exp 1.702 := by
    have h := Real.add_one_le_exp (1.702 : ℝ)
    linarith
  have hsq : Real.exp 3.404 = Real.exp 1.702 * Real.exp 1.702 := by
    rw [← Real.exp_add]; norm_num
  have hp1 : (0 : ℝ) < 1 + Real.exp 1.702 := by positivity
  have hp2 : (0 : ℝ) < 1 + Real.exp 3.404 := by positivity
  rw [mul_one_div, mul_one_div, div_lt_div_iff₀ hp1 hp2]
  nlinarith [hu, hsq, sq_nonneg (Real.exp 1.702 - 2.702)]

/-- C2 amended: `QuickGELU 0 = 0`, and QuickGELU is monotonically increasing
on the nonnegative reals: for `0 ≤ x1 < x2`, `QuickGELU x1 ≤ QuickGELU x2`. -/
theorem QuickGELU_spec (x1 x2 : ℝ) (h0 : 0 ≤ x1) (h12 : x1 < x2) :
    QuickGELU_forward_native Real.exp 0 = 0 ∧
    QuickGELU_forward_native Real.exp x1 ≤ QuickGELU_forward_native Real.exp x2 := by
  constructor
  · simp [QuickGELU_forward_native]
  · unfold QuickGELU_forward_native
    exact mul_le_mul h12.le (sigmoid_real_mono (by linarith))
      (sigmoid_real_nonneg _) (by linarith)

/-- Witness for C2 at `x1 = 0`, `x2 = 1`. -/
theorem QuickGELU_spec_witness :
    QuickGELU_forward_native Real.exp 0 = 0 ∧
    QuickGELU_forward_native Real.exp 0 ≤ QuickGELU_forward_native Real.exp 1 :=
  QuickGELU_spec 0 1 le_rfl one_pos

/-- State of a `ScaledActivation` module: the wrapped activation, the
`input_is_parallel` flag and the 1-D `scales` parameter. -/
structure ScaledActivationState (α : Type) where
  act : List (List α) → List (List α)
  input_is_parallel : Bool
  scales : List α

/-- Embedding of `ScaledActivation.forward`: `return self.act(x) / self.scales`, the 1-D
scale vector broadcast over the last dimension.  The module state and the
input tensor are threaded through explicitly: the result triple is
(output, state after the call, input tensor after the call). -/
def ScaledActivation_forward {α : Type} [Div α] (s : ScaledActivationState α)
    (x : List (List α)) :
    List (List α) × ScaledActivationState α × List (List α) :=
  ((s.act x).map (fun row => List.zipWith (fun a b => a / b) row s.scales),
   s, x)

/-- C3: `ScaledActivation.forward` returns the elementwise division of the
base activation's output by the scale vector, broadcast over the last
dimension (entry `(i, j)` of the output is `(act x)[i][j] / scales[j]`); the
module state and the input tensor come back unchanged. -/
theorem ScaledActivation_forward_spec (s : ScaledActivationState ℝ)
    (x : List (List ℝ)) (i j : ℕ) (row : List ℝ) (a b : ℝ)
    (hrow : (s.act x)[i]? = some row) (ha : row[j]? = some a)
    (hb : s.scales[j]? = some b) :
    (ScaledActivation_forward s x).2.1 = s ∧
    (ScaledActivation_forward s x).2.2 = x ∧
    ((ScaledActivation_forward s x).1).length = (s.act x).length ∧
    ∃ r, ((ScaledActivation_forward s x).1)[i]? = some r ∧
      r[j]? = some (a / b) := by
  refine ⟨rfl, rfl, by simp [ScaledActivation_forward], ?_⟩
  refine ⟨List.zipWith (fun a b => a / b) row s.scales, ?_, ?_⟩
  · simp [ScaledActivation_forward, List.getElem?_map, hrow]
  · exact (List.getElem?_zipWith_eq_some).mpr ⟨a, b, ha, hb, rfl⟩

/-- Witness for C3: the identity base activation with `scales = [2]` on the
tensor `[[6]]` divides entry `(0, 0)` by the scale, giving `3`. -/
theorem ScaledActivation_forward_spec_witness :
    (ScaledActivation_forward ⟨fun t => t, true, [2]⟩ [[(6 : ℝ)]]).2.1 =
      (⟨fun t => t, true, [2]⟩ : ScaledActivationState ℝ) ∧
    (ScaledActivation_forward ⟨fun t => t, true, [2]⟩ [[(6 : ℝ)]]).2.2 =
      [[(6 : ℝ)]] ∧
    ((ScaledActivation_forward ⟨fun t => t, true, [2]⟩ [[(6 : ℝ)]]).1).length =
      ((⟨fun t => t, true, [2]⟩ : ScaledActivationState ℝ).act [[(6 : ℝ)]]).length ∧
    ∃ r, ((ScaledActivation_forward ⟨fun t => t, true, [2]⟩ [[(6 : ℝ)]]).1)[0]? =
        some r ∧ r[0]? = some ((6 : ℝ) / 2) :=
  ScaledActivation_forward_spec ⟨fun t => t, true, [2]⟩ [[(6 : ℝ)]] 0 0
    [(6 : ℝ)] 6 2 rfl rfl rfl

/-- Errors a `weight_loader` call can raise: an out-of-range `Tensor.narrow`
(raised by torch) or the `assert param_data.shape == loaded_weight.shape`. -/
inductive LoadError where
  | narrowOutOfRange : LoadError
  | shapeMismatch : LoadError
deriving DecidableEq

/-- Embedding of `Tensor.narrow(0, start, length)` on a 1-D tensor: the contiguous slice
starting at `start` of length `length`, failing (as torch does) when the
requested range exceeds the tensor's size. -/
def narrow {α : Type} (l : List α) (start len : ℕ) : Option (List α) :=
  if start + len ≤ l.length then some ((l.drop start).take len) else none

/-- Embedding of `ScaledActivation.weight_loader` on a 1-D parameter: when
`input_is_parallel`, slice `loaded_weight` at offset
`tp_rank * shard_size` with length `shard_size = param_data.shape[0]`, then
`assert param_data.shape == loaded_weight.shape` and copy into the existing
parameter storage (the returned list is the new contents of that storage). -/
def ScaledActivation_weight_loader {α : Type} (input_is_parallel : Bool)
    (tp_rank : ℕ) (param_data loaded_weight : List α) :
    Except LoadError (List α) :=
  let shard_size := param_data.length
  let sliced : Except LoadError (List α) :=
    if input_is_parallel then
      match narrow loaded_weight (tp_rank * shard_size) shard_size with
      | some lw => .ok lw
      | none => .error .narrowOutOfRange
    else .ok loaded_weight
  match sliced with
  | .ok lw =>
    if param_data.length = lw.length then .ok lw else .error .shapeMismatch
  | .error e => .error e

/-- C4: with a partitioned input, `weight_loader` selects from
`loaded_weight` the contiguous slice at offset `tp_rank * shard_size` of
length `shard_size` (the local parameter's length); if the slice's shape
differs from the parameter's shape it fails with the shape-mismatch error,
otherwise it returns exactly that slice as the new parameter contents, whose
length always equals the existing parameter's length (no reallocation). -/
theorem ScaledActivation_weight_loader_parallel_spec {α : Type} (tp_rank : ℕ)
    (param_data loaded_weight slice : List α)
    (hn : narrow loaded_weight (tp_rank * param_data.length)
      param_data.length = some slice) :
    slice = (loaded_weight.drop (tp_rank * param_data.length)).take
      param_data.length ∧
    (slice.length ≠ param_data.length →
      ScaledActivation_weight_loader true tp_rank param_data loaded_weight =
        .error .shapeMismatch) ∧
    (slice.length = param_data.length →
      ScaledActivation_weight_loader true tp_rank param_data loaded_weight =
        .ok slice) ∧
    (∀ r, ScaledActivation_weight_loader true tp_rank param_data
        loaded_weight = .ok r → r.length = param_data.length) := by
  have hs : slice = (loaded_weight.drop (tp_rank * param_data.length)).take
      param_data.length := by
    unfold narrow at hn
    by_cases hle : tp_rank * param_data.length + param_data.length ≤
        loaded_weight.length
    · simpa [hle] using hn.symm
    · simp [hle] at hn
  have hred : ScaledActivation_weight_loader true tp_rank param_data
      loaded_weight =
      if param_data.length = slice.length then Except.ok slice
      else Except.error LoadError.shapeMismatch := by
    simp only [ScaledActivation_weight_loader, if_true, hn]
  refine ⟨hs, ?_, ?_, ?_⟩
  · intro hne
    rw [hred, if_neg (fun h => hne h.symm)]
  · intro he
    rw [hred, if_pos he.symm]
  · intro r hr
    rw [hred] at hr
    by_cases he : param_data.length = slice.length
    · rw [if_pos he] at hr
      cases hr
      exact he.symm
    · rw [if_neg he] at hr
      cases hr

/-- Witness for C4: worker rank 1 with a 2-element local parameter picks the
slice `[30, 40]` out of `[10, 20, 30, 40]` and loads it. -/
theorem ScaledActivation_weight_loader_parallel_spec_witness :
    ScaledActivation_weight_loader true 1 [(0 : ℕ), 0] [10, 20, 30, 40] =
      .ok [30, 40] :=
  (ScaledActivation_weight_loader_parallel_spec 1 [(0 : ℕ), 0]
    [10, 20, 30, 40] [30, 40] (by decide)).2.2.1 rfl

/-- Python `str.lower`, modelled characterwise on the string's characters
(the registry keys and quantization names are ASCII). -/
def pyLower (s : String) : String :=
  ⟨s.data.map Char.toLower⟩

/-- Python `str.startswith`. -/
def pyStartsWith (s p : String) : Bool :=
  p.data.isPrefixOf s.data

/-- The base activation modules held in `_ACTIVATION_REGISTRY`. -/
inductive ActName where
  | gelu : ActName
  | gelu_pytorch_tanh : ActName
  | gelu_new : ActName
  | relu2 : ActName
deriving DecidableEq

/-- The module `get_act_fn` returns: a base activation from the registry, or
a `ScaledActivation` wrapping one, carrying the length of its 1-D `scales`
parameter. -/
inductive ActModule where
  | base (a : ActName) : ActModule
  | scaled (a : ActName) (scalesLen : ℕ) : ActModule
deriving DecidableEq

/-- Errors raised while building an activation: the unsupported-name
`ValueError`, the missing `intermediate_size` `ValueError`, and the
divisibility assertion inside `divide`. -/
inductive ActError where
  | unsupportedActivation (name : String) : ActError
  | missingIntermediateSize : ActError
  | notDivisible : ActError
deriving DecidableEq

/-- The registry `_ACTIVATION_REGISTRY`: the fixed name-to-module mapping. -/
def _ACTIVATION_REGISTRY : List (String × ActName) :=
  [("gelu", ActName.gelu),
   ("gelu_pytorch_tanh", ActName.gelu_pytorch_tanh),
   ("gelu_new", ActName.gelu_new),
   ("relu2", ActName.relu2)]

/-- Modelled from the spec: `divide` from `sglang.srt.distributed` (imported
by the source but not part of this excerpt) divides the total intermediate
size by the tensor-parallel world size, which "must divide evenly — fails
with a configuration error otherwise". -/
def divide (numerator denominator : ℕ) : Except ActError ℕ :=
  if numerator % denominator = 0 then Except.ok (numerator / denominator)
  else Except.error ActError.notDivisible

/-- The quantization config seen by `get_act_fn`: only
`get_scaled_act_names()` is consumed. -/
structure QuantizationConfig where
  scaled_act_names : List String

/-- Embedding of `ScaledActivation.__init__` reduced to what determines the `scales`
parameter: with a parallel input the per-partition size is
`divide(intermediate_size, tp_size)`, otherwise the full size; the world
size `tp_size` is passed explicitly (it comes from the distributed module,
outside this excerpt). -/
def ScaledActivation_init (tp_size : ℕ) (act : ActName)
    (intermediate_size : ℕ) (input_is_parallel : Bool) :
    Except ActError ActModule :=
  if input_is_parallel then
    match divide intermediate_size tp_size with
    | Except.ok m => Except.ok (ActModule.scaled act m)
    | Except.error e => Except.error e
  else Except.ok (ActModule.scaled act intermediate_size)

/-- Embedding of `get_act_fn`: lowercase the name, look it up in `_ACTIVATION_REGISTRY`
(unsupported-name error when absent), and wrap in a `ScaledActivation` when
the quantization config lists the name among its scaled activations
(requiring `intermediate_size`). -/
def get_act_fn (tp_size : ℕ) (act_fn_name : String)
    (quant_config : Option QuantizationConfig)
    (intermediate_size : Option ℕ) (input_is_parallel : Bool) :
    Except ActError ActModule :=
  let name := pyLower act_fn_name
  match List.lookup name _ACTIVATION_REGISTRY with
  | none => Except.error (ActError.unsupportedActivation name)
  | some act_fn =>
    match quant_config with
    | some qc =>
      if name ∈ qc.scaled_act_names then
        match intermediate_size with
        | none => Except.error ActError.missingIntermediateSize
        | some isz => ScaledActivation_init tp_size act_fn isz input_is_parallel
      else Except.ok (ActModule.base act_fn)
    | none => Except.ok (ActModule.base act_fn)

/-- C5: `get_act_fn` only looks at the lowercase form of its name argument,
and for every name whose lowercase form is not a registry key it fails with
the unsupported-activation error. -/
theorem get_act_fn_unsupported (tp_size : ℕ) (name name' : String)
    (qc : Option QuantizationConfig) (isz : Option ℕ) (par : Bool) :
    (pyLower name = pyLower name' →
      get_act_fn tp_size name qc isz par =
        get_act_fn tp_size name' qc isz par) ∧
    (pyLower name ∉ _ACTIVATION_REGISTRY.map Prod.fst →
      get_act_fn tp_size name qc isz par =
        Except.error (ActError.unsupportedActivation (pyLower name))) := by
  constructor
  · intro h
    simp only [get_act_fn, h]
  · intro h
    have h1 : (pyLower name == "gelu") = false := by
      simp only [beq_eq_false_iff_ne, ne_eq]
      intro e
      exact h (by rw [e]; simp [_ACTIVATION_REGISTRY])
    have h2 : (pyLower name == "gelu_pytorch_tanh") = false := by
      simp only [beq_eq_false_iff_ne, ne_eq]
      intro e
      exact h (by rw [e]; simp [_ACTIVATION_REGISTRY])
    have h3 : (pyLower name == "gelu_new") = false := by
      simp only [beq_eq_false_iff_ne, ne_eq]
      intro e
      exact h (by rw [e]; simp [_ACTIVATION_REGISTRY])
    have h4 : (pyLower name == "relu2") = false := by
      simp only [beq_eq_false_iff_ne, ne_eq]
      intro e
      exact h (by rw [e]; simp [_ACTIVATION_REGISTRY])
    simp [get_act_fn, _ACTIVATION_REGISTRY, List.lookup, h1, h2, h3, h4]

/-- Witness for C5: `"UNKNOWN_NAME"` resolves like `"unknown_name"` and is
rejected with the unsupported-activation error. -/
theorem get_act_fn_unsupported_witness :
    get_act_fn 1 "UNKNOWN_NAME" none none true =
      get_act_fn 1 "unknown_name" none none true ∧
    get_act_fn 1 "UNKNOWN_NAME" none none true =
      Except.error (ActError.unsupportedActivation "unknown_name") := by
  have h := get_act_fn_unsupported 1 "UNKNOWN_NAME" "unknown_name" none none
    true
  refine ⟨h.1 (by decide), ?_⟩
  have h2 := h.2 (by decide)
  have e : pyLower "UNKNOWN_NAME" = "unknown_name" := by decide
  rw [e] at h2
  exact h2

/-- C6: when the registered (lowercased) name is listed by the quantization
config as requiring post-scaling, `get_act_fn` fails with the
missing-parameter error if `intermediate_size` is absent and otherwise
returns a `ScaledActivation` whose scale-vector length is
`intermediate_size / tp_size` (parallel input); when no scaling is requested
— name not listed, or no quantization config — the base activation comes
back unwrapped. -/
theorem get_act_fn_scaled_spec (tp_size n : ℕ) (name : String)
    (qc : QuantizationConfig) (par : Bool) (act : ActName) (isz : Option ℕ)
    (hl : List.lookup (pyLower name) _ACTIVATION_REGISTRY = some act) :
    (pyLower name ∈ qc.scaled_act_names →
      get_act_fn tp_size name (some qc) none par =
        Except.error ActError.missingIntermediateSize) ∧
    (pyLower name ∈ qc.scaled_act_names → n % tp_size = 0 →
      get_act_fn tp_size name (some qc) (some n) true =
        Except.ok (ActModule.scaled act (n / tp_size))) ∧
    (pyLower name ∉ qc.scaled_act_names →
      get_act_fn tp_size name (some qc) isz par =
        Except.ok (ActModule.base act)) ∧
    (get_act_fn tp_size name none isz par =
      Except.ok (ActModule.base act)) := by
  refine ⟨?_, ?_, ?_, ?_⟩
  · intro hmem
    simp [get_act_fn, hl, hmem]
  · intro hmem hdvd
    simp [get_act_fn, hl, hmem, ScaledActivation_init, divide, hdvd]
  · intro hmem
    simp [get_act_fn, hl, hmem]
  · simp [get_act_fn, hl]

/-- Witness for C6: with a quantization config scaling `"gelu"` and world
size 2, `get_act_fn "GELU"` with no intermediate size fails, with
`intermediate_size = 128` yields a scale vector of length 64, and without a
config (or for the unscaled `"RELU2"`) the base activation is returned. -/
theorem get_act_fn_scaled_spec_witness :
    get_act_fn 2 "GELU" (some ⟨["gelu"]⟩) none true =
      Except.error ActError.missingIntermediateSize ∧
    get_act_fn 2 "GELU" (some ⟨["gelu"]⟩) (some 128) true =
      Except.ok (ActModule.scaled ActName.gelu 64) ∧
    get_act_fn 2 "RELU2" (some ⟨["gelu"]⟩) none true =
      Except.ok (ActModule.base ActName.relu2) ∧
    get_act_fn 2 "GELU" none none true =
      Except.ok (ActModule.base ActName.gelu) := by
  have h := get_act_fn_scaled_spec 2 128 "GELU" ⟨["gelu"]⟩ true ActName.gelu
    none (by decide)
  have h' := get_act_fn_scaled_spec 2 0 "RELU2" ⟨["gelu"]⟩ true ActName.relu2
    none (by decide)
  exact ⟨h.1 (by decide), h.2.1 (by decide) (by decide),
    h'.2.2.1 (by decide), h.2.2.2⟩

/-- The `RuntimeError("GeluAndMul only support tanh or none")` raised on the
fused path for an unrecognized `approximate` mode. -/
inductive GeluMulError where
  | unsupportedApproximate : GeluMulError
deriving DecidableEq

/-- Embedding of `GeluAndMul.forward_native` on the last dimension:
`F.gelu(x[..., :d], approximate=self.approximate) * x[..., d:]`.  The
underlying `F.gelu` is abstract (torch code, outside this excerpt) and is
passed as a function of the mode string; no mode check is performed here. -/
def GeluAndMul_forward_native {α : Type} [Mul α] (gelu : String → α → α)
    (approximate : String) (x : List α) : List α :=
  let d := x.length / 2
  List.zipWith (fun a b => gelu approximate a * b) (x.take d) (x.drop d)

/-- Embedding of `GeluAndMul.forward_cuda`: dispatch to the fused `gelu_tanh_and_mul` or
`gelu_and_mul` kernel (abstract here, from `sgl_kernel`) according to
`self.approximate`, raising for any other mode. -/
def GeluAndMul_forward_cuda {α : Type}
    (gelu_tanh_and_mul gelu_and_mul : List α → List α)
    (approximate : String) (x : List α) : Except GeluMulError (List α) :=
  if approximate = "tanh" then Except.ok (gelu_tanh_and_mul x)
  else if approximate = "none" then Except.ok (gelu_and_mul x)
  else Except.error GeluMulError.unsupportedApproximate

/-- C7: `GeluAndMul.forward_cuda` raises exactly when the mode is neither
`"tanh"` nor `"none"`, while `forward_native` makes no mode check of its own:
it always returns a value, and its result depends on the underlying
approximate-GELU computation only through that computation's behaviour at
the given mode. -/
theorem GeluAndMul_mode_check (kt kn : List ℝ → List ℝ) (mode : String)
    (x : List ℝ) (g g' : String → ℝ → ℝ) (hg : g mode = g' mode) :
    ((∃ e, GeluAndMul_forward_cuda kt kn mode x = Except.error e) ↔
      (mode ≠ "tanh" ∧ mode ≠ "none")) ∧
    GeluAndMul_forward_native g mode x =
      GeluAndMul_forward_native g' mode x := by
  constructor
  · constructor
    · rintro ⟨e, he⟩
      by_cases h1 : mode = "tanh"
      · simp [GeluAndMul_forward_cuda, h1] at he
      · by_cases h2 : mode = "none"
        · simp [GeluAndMul_forward_cuda, h1, h2] at he
        · exact ⟨h1, h2⟩
    · rintro ⟨h1, h2⟩
      exact ⟨GeluMulError.unsupportedApproximate,
        by simp [GeluAndMul_forward_cuda, h1, h2]⟩
  · simp only [GeluAndMul_forward_native, hg]

/-- Witness for C7 at the unrecognized mode `"quick"`: the fused path raises
and the reference path still returns the gated product. -/
theorem GeluAndMul_mode_check_witness :
    (GeluAndMul_forward_cuda (fun l => l) (fun l => l) "quick" [(1 : ℝ), 2] =
      Except.error GeluMulError.unsupportedApproximate) ∧
    GeluAndMul_forward_native (fun _ t => t) "quick" [(1 : ℝ), 2] =
      GeluAndMul_forward_native (fun m t => if m = "quick" then t else 0)
        "quick" [(1 : ℝ), 2] := by
  have h := GeluAndMul_mode_check (fun l : List ℝ => l) (fun l : List ℝ => l)
    "quick" [(1 : ℝ), 2] (fun _ t => t)
    (fun m t => if m = "quick" then t else 0) (by funext t; simp)
  obtain ⟨e, he⟩ := h.1.mpr ⟨by decide, by decide⟩
  cases e
  exact ⟨he, h.2⟩

/-- The `AssertionError` raised when a configured cross-encoder activation
name lies outside the trusted `torch.nn.modules.` namespace. -/
inductive CrossEncoderError where
  | securityRejection : CrossEncoderError
deriving DecidableEq

/-- What cross-encoder resolution produces: an instance of the class named
by the (trusted) qualified name, or the default `nn.Identity()`. -/
inductive CrossEncoderAct where
  | resolved (qualname : String) : CrossEncoderAct
  | identity : CrossEncoderAct
deriving DecidableEq

/-- Embedding of `get_cross_encoder_activation_function`: the optional
`sbert_ce_default_activation_function` field of the config (absent or `None`
modelled as `none`) is resolved only when it starts with
`"torch.nn.modules."`; otherwise the assertion rejects it.  Without the
field, `nn.Identity()` is returned. -/
def get_cross_encoder_activation_function
    (sbert_ce_default_activation_function : Option String) :
    Except CrossEncoderError CrossEncoderAct :=
  match sbert_ce_default_activation_function with
  | some function_name =>
    if pyStartsWith function_name "torch.nn.modules." then
      Except.ok (CrossEncoderAct.resolved function_name)
    else Except.error CrossEncoderError.securityRejection
  | none => Except.ok CrossEncoderAct.identity

/-- C8: cross-encoder resolution resolves a configured name exactly when it
lies within the trusted `torch.nn.modules.` prefix, rejects every other name
with the security error, and returns the identity transform when the config
declares no name. -/
theorem get_cross_encoder_activation_function_spec
    (field : Option String) (n : String) :
    (field = none →
      get_cross_encoder_activation_function field =
        Except.ok CrossEncoderAct.identity) ∧
    (field = some n → pyStartsWith n "torch.nn.modules." = true →
      get_cross_encoder_activation_function field =
        Except.ok (CrossEncoderAct.resolved n)) ∧
    (field = some n → pyStartsWith n "torch.nn.modules." = false →
      get_cross_encoder_activation_function field =
        Except.error CrossEncoderError.securityRejection) := by
  refine ⟨?_, ?_, ?_⟩
  · intro h
    subst h
    rfl
  · intro h hp
    subst h
    simp [get_cross_encoder_activation_function, hp]
  · intro h hp
    subst h
    simp [get_cross_encoder_activation_function, hp]

/-- Witness for C8: `"os.system"` is rejected, a `torch.nn.modules.` name is
resolved, and an absent field yields the identity transform. -/
theorem get_cross_encoder_activation_function_spec_witness :
    get_cross_encoder_activation_function none =
      Except.ok CrossEncoderAct.identity ∧
    get_cross_encoder_activation_function
        (some "torch.nn.modules.activation.Sigmoid") =
      Except.ok (CrossEncoderAct.resolved
        "torch.nn.modules.activation.Sigmoid") ∧
    get_cross_encoder_activation_function (some "os.system") =
      Except.error CrossEncoderError.securityRejection := by
  refine ⟨(get_cross_encoder_activation_function_spec none "").1 rfl, ?_, ?_⟩
  · exact (get_cross_encoder_activation_function_spec
      (some "torch.nn.modules.activation.Sigmoid")
      "torch.nn.modules.activation.Sigmoid").2.1 rfl (by decide)
  · exact (get_cross_encoder_activation_function_spec (some "os.system")
      "os.system").2.2 rfl (by decide)

/-- The process-wide hardware-capability snapshot computed at import time:
`_is_cuda`, `_is_npu`, `_is_cpu_amx_available`, `_is_cpu`, `_is_hip`. -/
structure HardwareProfile where
  is_cuda : Bool
  is_npu : Bool
  is_cpu_amx_available : Bool
  is_cpu : Bool
  is_hip : Bool
deriving DecidableEq

/-- The module-level fallback condition:
`not (_is_cuda or _is_npu or (_is_cpu and _is_cpu_amx_available) or _is_hip)`. -/
def fallback_to_vllm (p : HardwareProfile) : Bool :=
  !(p.is_cuda || p.is_npu || (p.is_cpu && p.is_cpu_amx_available) || p.is_hip)

/-- Which implementations of the gated activations end up bound to the
module's `SiluAndMul`/`GeluAndMul` names after the import-time conditional
reassignment. -/
inductive GatedImplSource where
  | sglang : GatedImplSource
  | vllm : GatedImplSource
deriving DecidableEq

/-- The implementation bound to `SiluAndMul` and `GeluAndMul` after import:
the vllm reference implementations exactly when the fallback fires. -/
def gated_impl_after_import (p : HardwareProfile) : GatedImplSource :=
  if fallback_to_vllm p then GatedImplSource.vllm else GatedImplSource.sglang

/-- C9: the external reference implementations replace `SiluAndMul` and
`GeluAndMul` exactly when the snapshot shows no fused kernels anywhere: not
CUDA, not HIP, not NPU, and not an AMX-capable CPU; with any capable backend
flag set the fallback is never taken. -/
theorem gated_impl_fallback_iff (p : HardwareProfile) :
    gated_impl_after_import p = GatedImplSource.vllm ↔
      (p.is_cuda = false ∧ p.is_hip = false ∧ p.is_npu = false ∧
        ¬(p.is_cpu = true ∧ p.is_cpu_amx_available = true)) := by
  obtain ⟨c, n, a, u, h⟩ := p
  simp only [gated_impl_after_import, fallback_to_vllm]
  cases c <;> cases n <;> cases a <;> cases u <;> cases h <;> simp

/-- C10: with `input_is_parallel = False` the scale vector keeps the full
`intermediate_size` for every world size (no division, hence no
even-divisibility requirement), and `weight_loader` copies the entire loaded
weight unsliced, demanding only that its shape equal the full-size
parameter's shape. -/
theorem ScaledActivation_not_parallel_spec {α : Type} (tp_size : ℕ)
    (act : ActName) (isz tp_rank : ℕ) (param_data loaded_weight : List α) :
    ScaledActivation_init tp_size act isz false =
      Except.ok (ActModule.scaled act isz) ∧
    (param_data.length = loaded_weight.length →
      ScaledActivation_weight_loader false tp_rank param_data loaded_weight =
        Except.ok loaded_weight) ∧
    (param_data.length ≠ loaded_weight.length →
      ScaledActivation_weight_loader false tp_rank param_data loaded_weight =
        Except.error LoadError.shapeMismatch) := by
  refine ⟨rfl, ?_, ?_⟩
  · intro he
    simp [ScaledActivation_weight_loader, he]
  · intro hne
    simp [ScaledActivation_weight_loader, hne]

/-- Witness for C10: world size 3 with full size 7 (not divisible) still
yields a length-7 scale vector, and a matching 2-element weight is copied
whole while a 3-element one is rejected. -/
theorem ScaledActivation_not_parallel_spec_witness :
    ScaledActivation_init 3 ActName.gelu 7 false =
      Except.ok (ActModule.scaled ActName.gelu 7) ∧
    ScaledActivation_weight_loader false 1 [(0 : ℕ), 0] [10, 20] =
      Except.ok [10, 20] ∧
    ScaledActivation_weight_loader false 1 [(0 : ℕ), 0] [10, 20, 30] =
      Except.error LoadError.shapeMismatch := by
  have h := ScaledActivation_not_parallel_spec 3 ActName.gelu 7 1
    [(0 : ℕ), 0] [10, 20]
  have h' := ScaledActivation_not_parallel_spec 3 ActName.gelu 7 1
    [(0 : ℕ), 0] [10, 20, 30]
  exact ⟨h.1, h.2.1 (by decide), h'.2.2 (by decide)⟩

end ActivationLayer
